import Mathlib

/-!
Verification of the adaptive notification engine of the Fitness-App backend.

The Python sources under `app/services/` (`measurement_utils.py`,
`progress_reminder_service.py`, `tracking_reminder_service.py`,
`firebase_service.py`) and the admin fan-out in `app/routers/notifications.py`
are shallowly embedded below.  Conventions of the embedding:

* Python `float` is modelled by `ℚ` (all constants of the source are decimal
  literals, exactly representable as rationals; the spec's numeric claims carry
  tolerances that absorb the difference).
* Python `int` is modelled by `ℤ`; Python's built-in `round` (banker's
  rounding, round-half-to-even) is modelled by `pyRound`.
* Python `None` becomes `Option.none`; functions that can return `None` return
  an `Option`.
* Database queries are modelled by record fields holding the rows the query
  would return, in the query's `ORDER BY` order where the source specifies one.
* `str.strip` / `str.lower` are modelled by `String.trim` / `String.toLower`
  (faithful on the ASCII data the services handle).
-/

namespace FitnessApp

/-! ### Python primitives -/

/-- Python `str.lower()` (ASCII fragment). -/
def pyLower (s : String) : String := s.toLower

/-- Python `str.strip()` (whitespace on both ends). -/
def pyStrip (s : String) : String := s.trim

/-- Matching of a pattern at the head of a character list.  `headMatches p h`
holds when `h` starts with `p`. -/
def headMatches : List Char → List Char → Bool
  | [], _ => true
  | _ :: _, [] => false
  | a :: as, b :: bs => a == b && headMatches as bs

/-- Python's `needle in hay` test on strings, over character lists. -/
def occursInChars (needle : List Char) : List Char → Bool
  | [] => needle.isEmpty
  | c :: rest => headMatches needle (c :: rest) || occursInChars needle rest

/-- Python's `needle in hay` substring test. -/
def strContains (hay needle : String) : Bool :=
  occursInChars needle.toList hay.toList

/-- Floor of a rational, written so that the kernel can evaluate it (see
`ratFloor_eq_floor` below). -/
def ratFloor (q : ℚ) : ℤ := q.num.fdiv (q.den : ℤ)

/-- Python's `round(x)` on a real number: round half to even, returning an
integer (the behaviour of `round` with no `ndigits` argument). -/
def pyRound (q : ℚ) : ℤ :=
  let f := ratFloor q
  let frac := q - (f : ℚ)
  if frac < 1/2 then f
  else if 1/2 < frac then f + 1
  else if f % 2 = 0 then f else f + 1

/-! ### Numeric extraction (`measurement_utils.parse_numeric_value`)

The source searches an answer string with the regex `-?\d+(?:\.\d+)?`
(leftmost match, greedy) and feeds the match to `float`.  The regex is embedded
as a scanner over the character list, and the decimal literal is read exactly
into `ℚ`. -/

/-- Longest leading run of decimal digits, with the remainder of the list. -/
def spanDigits : List Char → List Char × List Char
  | [] => ([], [])
  | c :: cs =>
    if c.isDigit then
      let (ds, rest) := spanDigits cs
      (c :: ds, rest)
    else ([], c :: cs)

/-- Value of a digit string, most significant first. -/
def digitsToNat (ds : List Char) : Nat :=
  ds.foldl (fun acc c => acc * 10 + (c.toNat - '0'.toNat)) 0

/-- Greedy match of `-?\d+(?:\.\d+)?` anchored at the head of the list;
returns the matched characters. -/
def numericMatchAt (cs : List Char) : Option (List Char) :=
  let (sign, rest) :=
    match cs with
    | '-' :: r => ([('-' : Char)], r)
    | r => (([] : List Char), r)
  let (ds, rest2) := spanDigits rest
  if ds.isEmpty then none
  else
    match rest2 with
    | '.' :: r2 =>
      let (fs, _) := spanDigits r2
      if fs.isEmpty then some (sign ++ ds) else some (sign ++ ds ++ '.' :: fs)
    | _ => some (sign ++ ds)

/-- `re.search` for the numeric pattern: the match at the leftmost position
where one exists. -/
def numericSearch : List Char → Option (List Char)
  | [] => none
  | c :: cs =>
    match numericMatchAt (c :: cs) with
    | some m => some m
    | none => numericSearch cs

/-- Exact rational value of an unsigned decimal literal `ddd` or `ddd.ddd`. -/
def decimalValueUnsigned (cs : List Char) : ℚ :=
  let (ds, rest) := spanDigits cs
  let intPart : ℚ := (digitsToNat ds : ℚ)
  match rest with
  | '.' :: fs => intPart + (digitsToNat fs : ℚ) / ((10 : ℚ) ^ fs.length)
  | _ => intPart

/-- Exact rational value of an optionally signed decimal literal. -/
def decimalValue (cs : List Char) : ℚ :=
  match cs with
  | '-' :: rest => -(decimalValueUnsigned rest)
  | _ => decimalValueUnsigned cs

/-- Embedding of `parse_numeric_value(raw)`: `None` for a missing or empty
string or when the regex finds no number, otherwise the value of the first
numeric substring. -/
def parse_numeric_value (raw : Option String) : Option ℚ :=
  match raw with
  | none => none
  | some s =>
    if s = "" then none
    else
      match numericSearch s.toList with
      | none => none
      | some m => some (decimalValue m)

/-! ### Answer records (`app.models.question`)

`UserAnswer` rows join a `Question` (text and `answer_type` tag) and carry a
free-text answer plus selected options; each selection's `option` may be
absent, and an option has nullable `value` and `option_text` columns. -/

structure AnswerOption where
  value : Option String
  option_text : Option String
deriving DecidableEq

structure QuestionRow where
  question : String
  answer_type : String
deriving DecidableEq

structure UserAnswer where
  question : Option QuestionRow
  answer_text : Option String
  selected_options : List (Option AnswerOption)
deriving DecidableEq

/-! ### Unit resolution and conversion (`measurement_utils.py`) -/

def WEIGHT_UNIT_ALIASES : List (String × List String) :=
  [("kg", ["kg", "kgs", "kilogram", "kilograms"]),
   ("lb", ["lb", "lbs", "pound", "pounds"]),
   ("oz", ["oz", "ounce", "ounces"]),
   ("stone", ["stone", "stones", "st"])]

def HEIGHT_UNIT_ALIASES : List (String × List String) :=
  [("cm", ["cm", "centimeter", "centimeters"]),
   ("m", ["m", "meter", "meters"]),
   ("ft", ["ft", "foot", "feet"]),
   ("in", ["in", "inch", "inches"])]

/-- Embedding of `normalize_unit`: strip and lowercase, mapping missing or
blank input to `None`. -/
def normalize_unit (raw : Option String) : Option String :=
  match raw with
  | none => none
  | some s =>
    if s = "" then none
    else
      let normalized := pyLower (pyStrip s)
      if normalized = "" then none else some normalized

/-- Embedding of `_map_unit`: first alias row whose canonical key or alias set
contains the value. -/
def map_unit (value : Option String) (mapping : List (String × List String)) :
    Option String :=
  match value with
  | none => none
  | some v =>
    if v = "" then none
    else (mapping.find? (fun p => v == p.1 || p.2.contains v)).map (·.1)

/-- Embedding of `resolve_weight_unit`: scan the answer's selected options,
trying each option's `value` then `option_text` against the weight aliases. -/
def resolve_weight_unit (answer : UserAnswer) : Option String :=
  answer.selected_options.findSome? (fun sel =>
    match sel with
    | none => none
    | some opt =>
      [opt.value, opt.option_text].findSome? (fun source =>
        map_unit (normalize_unit source) WEIGHT_UNIT_ALIASES))

/-- Embedding of `resolve_height_unit`. -/
def resolve_height_unit (answer : UserAnswer) : Option String :=
  answer.selected_options.findSome? (fun sel =>
    match sel with
    | none => none
    | some opt =>
      [opt.value, opt.option_text].findSome? (fun source =>
        map_unit (normalize_unit source) HEIGHT_UNIT_ALIASES))

/-- Embedding of `convert_weight_to_kg`: negative magnitudes are rejected;
`lb`, `oz` and `stone` are scaled by their fixed factors; any other unit
(including a missing one) passes the value through as kilograms. -/
def convert_weight_to_kg (value : ℚ) (unit : Option String) : Option ℚ :=
  if value < 0 then none
  else if unit = some "lb" then some (value * (45359237 / 100000000))
  else if unit = some "oz" then some (value * (283495 / 10000000))
  else if unit = some "stone" then some (value * (635029318 / 100000000))
  else some value

/-- Embedding of `convert_height_to_m`. -/
def convert_height_to_m (value : ℚ) (unit : Option String) : Option ℚ :=
  if value < 0 then none
  else if unit = some "cm" then some (value / 100)
  else if unit = some "ft" then some (value * (3048 / 10000))
  else if unit = some "in" then some (value * (254 / 10000))
  else some value

/-- Embedding of `weight_kg_from_answer`: parse the free text, resolve the
unit from the options, convert. -/
def weight_kg_from_answer (answer : UserAnswer) : Option ℚ :=
  match parse_numeric_value answer.answer_text with
  | none => none
  | some raw_value => convert_weight_to_kg raw_value (resolve_weight_unit answer)

/-! ### Progress reminder service (`progress_reminder_service.py`)

Module constants. -/

def CALORIES_PER_STEP : ℚ := 4 / 100
def REFERENCE_WEIGHT_KG : ℚ := 70
def DEFAULT_BASE_CALORIES : ℚ := 1200
def ACTIVITY_MULTIPLIER : ℚ := 12 / 10
def BMR_MALE_OFFSET : ℚ := 5
def BMR_FEMALE_OFFSET : ℚ := -161

def PROGRESS_REMINDER_TITLE : String := "Progress update"
def PROGRESS_REMINDER_BODY : String :=
  "You have {remaining} calories left to reach today's goal."

/-- Python `date` value, as produced by `datetime.date`. -/
structure PyDate where
  year : ℤ
  month : ℤ
  day : ℤ
deriving DecidableEq

/-- Relevant columns of the `User` row (`user.dob`, `user.gender`). -/
structure UserRow where
  dob : Option String
  gender : Option String
deriving DecidableEq

/-- Per-user view of the session data read by the progress reminder tick.
Each field holds the rows the corresponding query returns:
`latest_weight_log` is the `weight_kg` of the newest `WeightLog` row
(`ORDER BY logged_at DESC ... first()`), `answers` is the user's answer
history ordered most recent first (`ORDER BY created_at DESC`),
`todays_steps` the `steps` column of today's `HealthStep` row if any, and
`todays_food_calories` the nullable `calories` column of today's `FoodLog`
rows. -/
structure ProgressUserData where
  latest_weight_log : Option ℚ
  answers : List UserAnswer
  user : Option UserRow
  todays_steps : Option ℤ
  todays_food_calories : List (Option ℚ)
deriving DecidableEq

/-- Embedding of `_latest_weight_kg`: the newest weight log's kilograms. -/
def latest_weight_kg (d : ProgressUserData) : Option ℚ :=
  d.latest_weight_log

/-- Embedding of `_find_answer_by_keywords`: the first answer whose question
text contains one of the `include` keywords and none of the `exclude`
keywords (all comparisons on the lowercased question text). -/
def find_answer_by_keywords (answers : List UserAnswer)
    (includeKws excludeKws : List String) : Option UserAnswer :=
  answers.find? (fun answer =>
    let question_text :=
      pyLower (match answer.question with | some q => q.question | none => "")
    includeKws.any (fun keyword => strContains question_text keyword) &&
      !(excludeKws.any (fun keyword => strContains question_text keyword)))

/-- Embedding of `_question_contains`. -/
def question_contains (question : String) (keywords : List String) : Bool :=
  keywords.any (fun keyword => strContains (pyLower question) keyword)

/-- Embedding of `_goal_weight_from_answers`. -/
def goal_weight_from_answers (answers : List UserAnswer) : Option ℚ :=
  match find_answer_by_keywords answers ["goal weight", "target weight"] [] with
  | none => none
  | some answer => weight_kg_from_answer answer

/-- Embedding of `_current_weight_from_answers`: the keyword-matched
"current weight" answer if it parses, else the first answer typed `weight`
whose question is not a goal-weight question and whose value parses. -/
def current_weight_from_answers (answers : List UserAnswer) : Option ℚ :=
  let fromKeyword :=
    match find_answer_by_keywords answers ["current weight"] [] with
    | none => none
    | some answer => weight_kg_from_answer answer
  match fromKeyword with
  | some parsed => some parsed
  | none =>
    let weight_answers := answers.filter (fun entry =>
      pyLower (match entry.question with | some q => q.answer_type | none => "")
          == "weight" &&
        !(question_contains
          (match entry.question with | some q => q.question | none => "")
          ["goal weight", "target weight"]))
    weight_answers.findSome? weight_kg_from_answer

/-- Embedding of `_resolve_unit`: the first non-blank selected-option
`value`/`option_text`, stripped and lowercased; otherwise the first of the
tokens `lb`, `kg`, `month`, `week`, `day` occurring in the lowercased answer
text. -/
def resolve_unit (answer : UserAnswer) : Option String :=
  let fromOptions := answer.selected_options.findSome? (fun sel =>
    match sel with
    | none => none
    | some opt =>
      [opt.value, opt.option_text].findSome? (fun source =>
        match source with
        | none => none
        | some s =>
          if s = "" then none
          else if pyStrip s = "" then none
          else some (pyLower (pyStrip s))))
  match fromOptions with
  | some u => some u
  | none =>
    let text := pyLower (answer.answer_text.getD "")
    ["lb", "kg", "month", "week", "day"].findSome? (fun token =>
      if strContains text token then some token else none)

/-- Embedding of `_goal_timeframe_days_from_answers`: keyword-match a
timeframe answer, parse a positive number, then interpret the resolved unit
(`month`-like ×30, `day`-like ×1, anything else — including no unit — ×7),
rounding and flooring at one day. -/
def goal_timeframe_days_from_answers (answers : List UserAnswer) : Option ℤ :=
  match find_answer_by_keywords answers
      ["week", "month", "time", "timeframe", "reach"] [] with
  | none => none
  | some answer =>
    match parse_numeric_value answer.answer_text with
    | none => none
    | some value =>
      if value ≤ 0 then none
      else
        match resolve_unit answer with
        | some unit =>
          if strContains unit "month" then some (max (pyRound (value * 30)) 1)
          else if strContains unit "day" then some (max (pyRound value) 1)
          else some (max (pyRound (value * 7)) 1)
        | none => some (max (pyRound (value * 7)) 1)

/-- Embedding of `_height_cm_from_answers`: first answer tagged or worded as
height whose value parses and converts, in centimetres. -/
def height_cm_from_answers (answers : List UserAnswer) : Option ℚ :=
  answers.findSome? (fun entry =>
    let question := match entry.question with | some q => q.question | none => ""
    let answer_type :=
      pyLower (match entry.question with | some q => q.answer_type | none => "")
    if answer_type ≠ "height" && !(strContains (pyLower question) "height") then
      none
    else
      match parse_numeric_value entry.answer_text with
      | none => none
      | some value =>
        match convert_height_to_m value (resolve_height_unit entry) with
        | none => none
        | some height_m => some (height_m * 100))

/-- Leading `YYYY-MM-DD` of an ISO date/datetime string.  This models the
`datetime.fromisoformat(raw)` / `datetime.fromisoformat(raw[:10])` cascade of
`_age_from_raw_date`: in both successful cases the `.date()` of the result is
given by the first ten characters. -/
def parseIsoDate (s : String) : Option PyDate :=
  match s.toList with
  | y1 :: y2 :: y3 :: y4 :: '-' :: m1 :: m2 :: '-' :: d1 :: d2 :: _ =>
    if [y1, y2, y3, y4, m1, m2, d1, d2].all Char.isDigit then
      let year : ℤ := (digitsToNat [y1, y2, y3, y4] : ℤ)
      let month : ℤ := (digitsToNat [m1, m2] : ℤ)
      let day : ℤ := (digitsToNat [d1, d2] : ℤ)
      if 1 ≤ month ∧ month ≤ 12 ∧ 1 ≤ day ∧ day ≤ 31 then
        some ⟨year, month, day⟩
      else none
    else none
  | _ => none

/-- Embedding of `_age_from_date`: calendar-aware year subtraction against
`date.today()` (passed as `today`), `None` when negative. -/
def age_from_date (today : PyDate) (dob : PyDate) : Option ℤ :=
  let age := today.year - dob.year
  let age :=
    if today.month < dob.month ∨ (today.month = dob.month ∧ today.day < dob.day)
    then age - 1 else age
  if age ≥ 0 then some age else none

/-- Embedding of `_age_from_raw_date`. -/
def age_from_raw_date (today : PyDate) (raw : Option String) : Option ℤ :=
  match raw with
  | none => none
  | some s =>
    if pyStrip s = "" then none
    else
      match parseIsoDate (pyStrip s) with
      | none => none
      | some dob => age_from_date today dob

/-- Embedding of `_age_years_from_answers`. -/
def age_years_from_answers (today : PyDate) (answers : List UserAnswer) :
    Option ℤ :=
  let answer := find_answer_by_keywords answers ["date of birth", "dob", "birth"] []
  let raw := match answer with | some a => a.answer_text | none => none
  age_from_raw_date today raw

/-- Embedding of `_gender_from_answers`: keyword-match a gender answer, read
the first non-blank option value/label (else the free text) and normalize by
substring match, `female` before `male`. -/
def gender_from_answers (answers : List UserAnswer) : Option String :=
  match find_answer_by_keywords answers ["gender"] [] with
  | none => none
  | some answer =>
    let fromOptions := answer.selected_options.findSome? (fun sel =>
      match sel with
      | none => none
      | some opt =>
        [opt.value, opt.option_text].findSome? (fun source =>
          match source with
          | none => none
          | some s =>
            if s = "" then none
            else if pyStrip s = "" then none
            else some (pyStrip s)))
    let raw := match fromOptions with
      | some r => some r
      | none => answer.answer_text
    match raw with
    | none => none
    | some r =>
      if r = "" then none
      else
        let normalized := pyLower (pyStrip r)
        if strContains normalized "female" then some "female"
        else if strContains normalized "male" then some "male"
        else none

/-- Embedding of `_gender_bmr_offset`. -/
def gender_bmr_offset (gender : Option String) : ℚ :=
  let normalized := pyLower (pyStrip (gender.getD ""))
  if normalized = "male" then BMR_MALE_OFFSET
  else if normalized = "female" then BMR_FEMALE_OFFSET
  else 0

/-- Embedding of `_estimate_maintenance_calories`: Mifflin-St Jeor scaled by
the activity multiplier when height and age are known and the BMR is
positive; otherwise the `weight × 30` heuristic. -/
def estimate_maintenance_calories (weight_kg : ℚ) (height_cm : Option ℚ)
    (age_years : Option ℤ) (gender : Option String) : ℚ :=
  match height_cm, age_years with
  | some h, some a =>
    let base := 10 * weight_kg + (625 / 100) * h - 5 * (a : ℚ)
    let offset := gender_bmr_offset gender
    let bmr := base + offset
    if bmr > 0 then bmr * ACTIVITY_MULTIPLIER else weight_kg * 30
  | _, _ => weight_kg * 30

/-- Embedding of `_todays_consumed_calories`: sum of today's food-log
calories, nulls as zero. -/
def todays_consumed_calories (d : ProgressUserData) : ℚ :=
  (d.todays_food_calories.map (fun c => c.getD 0)).sum

/-- Embedding of `_todays_burned_calories`: steps × 0.04 kcal scaled by
body weight over the 70 kg reference (a falsy — missing or zero — weight
falls back to the reference, then is floored at 1 kg). -/
def todays_burned_calories (d : ProgressUserData) (weight_kg : Option ℚ) : ℤ :=
  let steps : ℤ := d.todays_steps.getD 0
  let w : ℚ :=
    match weight_kg with
    | none => REFERENCE_WEIGHT_KG
    | some w => if w = 0 then REFERENCE_WEIGHT_KG else w
  let weight := max w 1
  pyRound ((steps : ℚ) * CALORIES_PER_STEP * (weight / REFERENCE_WEIGHT_KG))

/-- Resolution of the current weight in `_calculate_target_calories`
(lines 128–132, factored out for reuse): prefer the latest weight log, else
the answer-derived current weight. -/
def resolved_current_weight (d : ProgressUserData) : Option ℚ :=
  match latest_weight_kg d with
  | some w => some w
  | none => current_weight_from_answers d.answers

/-- Embedding of `_calculate_target_calories`.  `today` stands for
`date.today()` inside the age computation.  Returns the rounded target
(clamped below at 1200 kcal) and the rounded burned calories, or `None` when
current weight, goal weight or timeframe is unresolvable (Python's
`not timeframe_days` also treats a zero timeframe as missing). -/
def calculate_target_calories (today : PyDate) (d : ProgressUserData) :
    Option (ℤ × ℤ) :=
  let answers := d.answers
  let user := d.user
  let current_weight := resolved_current_weight d
  let goal_weight := goal_weight_from_answers answers
  let timeframe_days := goal_timeframe_days_from_answers answers
  match current_weight, goal_weight, timeframe_days with
  | some cw, some gw, some tf =>
    if tf = 0 then none
    else
      let height_cm := height_cm_from_answers answers
      let age_years0 := age_years_from_answers today answers
      let age_years :=
        match age_years0, user with
        | none, some u =>
          (match u.dob with
           | some dobStr =>
             if dobStr = "" then none else age_from_raw_date today (some dobStr)
           | none => none)
        | a, _ => a
      let gender :=
        match gender_from_answers answers with
        | some g => some g
        | none => match user with | some u => u.gender | none => none
      let maintenance := estimate_maintenance_calories cw height_cm age_years gender
      let delta := gw - cw
      let target :=
        if |delta| < 1 / 100 ∨ tf ≤ 0 then maintenance
        else
          let daily_delta := |delta| * 7700 / (tf : ℚ)
          maintenance + (if delta > 0 then daily_delta else -daily_delta)
      let target_calories := pyRound (max DEFAULT_BASE_CALORIES target)
      let burned_calories := todays_burned_calories d (some cw)
      some (target_calories, burned_calories)
  | _, _, _ => none

/-- Embedding of `_format_progress_body`: the configured template with the
`remaining`/`target` placeholders substituted (the default template uses
exactly these, so `str.format` is textual substitution), or the fallback
sentence when the template is empty. -/
def format_progress_body (remaining target : ℤ) : String :=
  let template := PROGRESS_REMINDER_BODY
  if template = "" then
    "You have " ++ toString remaining ++ " calories left to reach today's goal."
  else
    (template.replace "{remaining}" (toString remaining)).replace "{target}"
      (toString target)

/-- Embedding of `_build_user_reminder`: compute the target, add today's
burned calories, subtract today's consumed calories; skip the user (return
`None`) unless the rounded remainder is positive, else build the
title/body/payload triple. -/
def build_user_reminder (today : PyDate) (d : ProgressUserData) :
    Option (String × String × List (String × String)) :=
  match calculate_target_calories today d with
  | none => none
  | some (target_calories, burned_calories) =>
    let consumed_calories := todays_consumed_calories d
    let daily_allowance := target_calories + burned_calories
    let remaining := pyRound ((daily_allowance : ℚ) - consumed_calories)
    if remaining ≤ 0 then none
    else
      let title := PROGRESS_REMINDER_TITLE
      let body := format_progress_body remaining daily_allowance
      let payload := [("type", "progress_update"),
                      ("remaining_calories", toString remaining),
                      ("target_calories", toString daily_allowance)]
      some (title, body, payload)

/-! ### Push dispatch (`firebase_service.py`)

The Firebase transport is abstracted as a function from a token batch to the
per-token outcomes (`response.responses`, positionally aligned with the
tokens).  `configured` models whether `firebase_app` was initialised from
credentials at import time. -/

/-- Outcome the transport reports for one token (`resp.success`,
`resp.exception.code`, `str(resp.exception)`). -/
structure SendResponse where
  success : Bool
  error_code : Option String
  error_message : String
deriving DecidableEq

/-- An entry of the returned `errors` list. -/
structure PushError where
  token : String
  code : Option String
  message : String
deriving DecidableEq

/-- The dictionary `send_push_notification` returns.  The empty-token early
return carries only `success` and `failure`; the `Option` on the other two
fields models the presence of the dictionary keys. -/
structure PushResult where
  success : ℕ
  failure : ℕ
  invalid_tokens : Option (List String)
  errors : Option (List PushError)
deriving DecidableEq

/-- Embedding of `_should_invalidate_token`: an exact allow-list on the
lowercased error code, then substring keywords on the lowercased message. -/
def should_invalidate_token (error_code : Option String)
    (error_message : String) : Bool :=
  let normalized_code := pyLower (error_code.getD "")
  let normalized_message := pyLower error_message
  let invalid_codes := ["registration-token-not-registered",
    "messaging/registration-token-not-registered",
    "messaging/invalid-apns-credentials",
    "invalid-argument"]
  if invalid_codes.contains normalized_code then true
  else
    let keywords := ["requested entity was not found", "notregistered",
      "auth error from apns", "invalid-apns-credentials"]
    keywords.any (fun keyword => strContains normalized_message keyword)

/-- Embedding of `send_push_notification`: raise (`Except.error`) when the
Firebase app is unconfigured; return bare zero counts for an empty token
list without touching the transport; otherwise send all tokens in one
multicast message and classify each failed token. -/
def send_push_notification (configured : Bool)
    (transport : List String → List SendResponse) (tokens : List String) :
    Except String PushResult :=
  if configured = false then
    .error "Firebase app is not configured. Set FIREBASE_CREDENTIALS_FILE env."
  else if tokens.isEmpty then
    .ok { success := 0, failure := 0, invalid_tokens := none, errors := none }
  else
    let responses := transport tokens
    let success_count := (responses.filter (fun r => r.success)).length
    let failure_count := (responses.filter (fun r => !r.success)).length
    let indexed := tokens.zip responses
    let errors := indexed.filterMap (fun p =>
      if p.2.success then none
      else some { token := p.1, code := p.2.error_code,
                  message := p.2.error_message })
    let invalid_tokens := indexed.filterMap (fun p =>
      if p.2.success then none
      else if should_invalidate_token p.2.error_code p.2.error_message then
        some p.1
      else none)
    .ok { success := success_count, failure := failure_count,
          invalid_tokens := some invalid_tokens, errors := some errors }

/-- Token batches `send_push_notification` hands to the underlying transport
(`messaging.send_each_for_multicast`): none when unconfigured (it raises
first) or when the token list is empty (early return); otherwise exactly one
multicast message carrying the whole list. -/
def send_push_transport_calls (configured : Bool) (tokens : List String) :
    List (List String) :=
  if configured = false then []
  else if tokens.isEmpty then []
  else [tokens]

/-- Python `result.get("invalid_tokens") or []` as the schedulers read the
result: a missing key and an empty list both give `[]`. -/
def pyGetOrEmpty (entry : Option (List String)) : List String :=
  match entry with
  | none => []
  | some l => l

/-- Embedding of the token pruning the schedulers run
(`DeviceToken.token.in_(invalid_tokens)).delete(...)`): the device-token
store minus the reported invalid tokens. -/
def prune_tokens (store invalid : List String) : List String :=
  store.filter (fun t => !(invalid.contains t))

/-! ### Admin fan-out chunking (`routers/notifications.py`) -/

/-- Embedding of `_chunk_tokens(tokens, size=500)`: successive slices
`tokens[idx : idx + 500]` for `idx = 0, 500, 1000, …`. -/
def chunk_tokens : List String → List (List String)
  | [] => []
  | t :: rest =>
    (t :: rest).take 500 :: chunk_tokens ((t :: rest).drop 500)
termination_by tokens => tokens.length
decreasing_by simp [List.length_drop]; omega

/-! ### Progress reminder tick loop (`ProgressReminderScheduler._send_reminders`)

The per-user body of the loop over `tokens_by_user.items()`: skip a user with
no computable reminder; otherwise attempt the push inside `try/except`,
collecting reported invalid tokens and swallowing any exception. -/

/-- Invalid tokens one user's iteration contributes: nothing when the
reminder is `None` (the `continue` branch) or when `send_push_notification`
raises (the `except` branch). -/
def progress_user_invalid_tokens
    (send : List String → Except String PushResult)
    (reminder : Option (String × String × List (String × String)))
    (tokens : List String) : List String :=
  match reminder with
  | none => []
  | some _ =>
    match send tokens with
    | .ok result => pyGetOrEmpty result.invalid_tokens
    | .error _ => []

/-- The loop over all users of one progress tick: returns the user ids for
which a dispatch was attempted and the accumulated invalid tokens.  Errors
from `send` are caught per user; the loop always reaches the remaining
users. -/
def progress_send_loop (send : List String → Except String PushResult)
    (reminders : ℕ → Option (String × String × List (String × String))) :
    List (ℕ × List String) → List ℕ × List String
  | [] => ([], [])
  | (user_id, tokens) :: rest =>
    let tail := progress_send_loop send reminders rest
    match reminders user_id with
    | none => tail
    | some _ =>
      match send tokens with
      | .ok result =>
        (user_id :: tail.1, pyGetOrEmpty result.invalid_tokens ++ tail.2)
      | .error _ => (user_id :: tail.1, tail.2)

/-! ### Tracking reminder service (`tracking_reminder_service.py`)

Datetimes are modelled as rational day counts: the order on `datetime` is the
order on `ℚ`, `.date()` is the floor, and `(a.date() - b.date()).days` is the
difference of floors. -/

def REMINDER_INTERVAL_DAYS : ℤ := 7

/-- Per-user state the tracking tick reads and writes: the newest
`WeightLog.logged_at`, the newest `ProgressPhoto.taken_at` and the two
`last_*_reminder_at` columns of the user row. -/
structure TrackingUser where
  last_weight_log_at : Option ℚ
  last_photo_taken_at : Option ℚ
  last_weight_reminder_at : Option ℚ
  last_progress_photo_reminder_at : Option ℚ
deriving DecidableEq

/-- Embedding of `_is_reminder_due`: no log means never due; fewer than 7
days since the log means not due; a reminder stamped at or after the log and
fewer than 7 days ago blocks; otherwise due. -/
def is_reminder_due (last_log_at last_reminder_at : Option ℚ) (now : ℚ) :
    Bool :=
  match last_log_at with
  | none => false
  | some log_at =>
    let days_since_log := ratFloor now - ratFloor log_at
    if days_since_log < REMINDER_INTERVAL_DAYS then false
    else
      match last_reminder_at with
      | some reminder_at =>
        if reminder_at ≥ log_at then
          if ratFloor now - ratFloor reminder_at < REMINDER_INTERVAL_DAYS then
            false
          else true
        else true
      | none => true

/-- Embedding of `_should_send_weight_reminder`. -/
def should_send_weight_reminder (u : TrackingUser) (now : ℚ) : Bool :=
  is_reminder_due u.last_weight_log_at u.last_weight_reminder_at now

/-- Embedding of `_should_send_photo_reminder`. -/
def should_send_photo_reminder (u : TrackingUser) (now : ℚ) : Bool :=
  is_reminder_due u.last_photo_taken_at u.last_progress_photo_reminder_at now

/-- One user's iteration of `TrackingReminderScheduler._send_reminders` on
the successful-dispatch path (the `last_*_reminder_at = now` stamps sit
inside the `try` right after the successful `send_push_notification` call):
returns whether each reminder was sent and the updated user state.  As in
the source, the photo check runs against the state after the weight stamp
(which it does not read). -/
def tracking_process_user (u : TrackingUser) (now : ℚ) :
    Bool × Bool × TrackingUser :=
  let sendWeight := should_send_weight_reminder u now
  let u1 :=
    if sendWeight then { u with last_weight_reminder_at := some now } else u
  let sendPhoto := should_send_photo_reminder u1 now
  let u2 :=
    if sendPhoto then { u1 with last_progress_photo_reminder_at := some now }
    else u1
  (sendWeight, sendPhoto, u2)

/-! ### Concrete fixtures used by the theorems below -/

/-- Goal-weight questionnaire answer: "75" against a goal-weight question. -/
def c1_goal_answer : UserAnswer :=
  { question := some { question := "What is your goal weight?"
                       answer_type := "weight" }
    answer_text := some "75"
    selected_options := [] }

/-- Timeframe questionnaire answer: "4 weeks" against a timeframe question. -/
def c1_timeframe_answer : UserAnswer :=
  { question := some { question := "How much time to reach your goal?"
                       answer_type := "text" }
    answer_text := some "4 weeks"
    selected_options := [] }

/-- The end-to-end scenario of the spec: latest logged weight 80 kg, goal
75 kg in "4 weeks", no height/age/gender data, 5000 steps and 900 kcal
consumed today. -/
def c1_data : ProgressUserData :=
  { latest_weight_log := some 80
    answers := [c1_goal_answer, c1_timeframe_answer]
    user := none
    todays_steps := some 5000
    todays_food_calories := [some 900] }

/-- A fixed tick date (the scenario resolves no date of birth, so the value
is irrelevant). -/
def c1_today : PyDate := ⟨2026, 10, 12⟩

/-- Same user data without any goal-weight answer. -/
def c3_data : ProgressUserData :=
  { latest_weight_log := some 80
    answers := [c1_timeframe_answer]
    user := none
    todays_steps := some 5000
    todays_food_calories := [some 900] }

/-- A "160 lbs" answer whose selected option carries the `lbs` unit tag. -/
def c4_lbs_answer : UserAnswer :=
  { question := some { question := "What is your current weight?"
                       answer_type := "weight" }
    answer_text := some "160 lbs"
    selected_options := [some { value := some "lbs", option_text := some "Pounds" }] }

/-- A timeframe answer of 0.3 with a day unit in the text. -/
def c5_day_answer : UserAnswer :=
  { question := some { question := "How much time do you need?"
                       answer_type := "text" }
    answer_text := some "0.3 days"
    selected_options := [] }

/-- A timeframe answer of "4 weeks" for the witness. -/
def c5_week_answer : UserAnswer :=
  { question := some { question := "What timeframe works for you?"
                       answer_type := "text" }
    answer_text := some "4 weeks"
    selected_options := [] }

/-- The end-to-end scenario with 2000 kcal already consumed today, putting
the user over the daily allowance. -/
def c6_data : ProgressUserData :=
  { latest_weight_log := some 80
    answers := [c1_goal_answer, c1_timeframe_answer]
    user := none
    todays_steps := some 5000
    todays_food_calories := [some 2000] }

/-- Tracking state: a weight log on day 0, no photos, no reminders yet. -/
def c7_user : TrackingUser :=
  { last_weight_log_at := some 0
    last_photo_taken_at := none
    last_weight_reminder_at := none
    last_progress_photo_reminder_at := none }

/-- A token list one past the 500-token multicast ceiling. -/
def c8_tokens : List String := List.replicate 501 "t"

/-- A transport that fails every token with an allow-listed error code. -/
def c9_transport (tokens : List String) : List SendResponse :=
  tokens.map (fun _ =>
    { success := false, error_code := some "invalid-argument"
      error_message := "The registration token is not a valid FCM registration token" })

/-! ## Theorems -/

set_option maxRecDepth 3000

theorem ratFloor_eq_floor (q : ℚ) : ratFloor q = ⌊q⌋ := by
  rw [ratFloor, Rat.floor_def, Int.fdiv_eq_ediv _ (by positivity)]

theorem ratFloor_mono {a b : ℚ} (h : a ≤ b) : ratFloor a ≤ ratFloor b := by
  rw [ratFloor_eq_floor, ratFloor_eq_floor]
  exact Int.floor_mono h

/-- A nonpositive quantity never rounds to a positive integer. -/
theorem pyRound_le_zero (q : ℚ) (h : q ≤ 0) : pyRound q ≤ 0 := by
  unfold pyRound
  rw [ratFloor_eq_floor]
  dsimp only
  have h0 : ⌊q⌋ ≤ 0 := by
    have := Int.floor_mono h
    simpa using this
  have hle : (⌊q⌋ : ℚ) ≤ q := Int.floor_le q
  split_ifs with h1 h2 h3
  · exact h0
  · have : (⌊q⌋ : ℚ) < -(1/2) := by linarith
    have hneg : (⌊q⌋ : ℚ) < 0 := by linarith
    have : ⌊q⌋ < 0 := by exact_mod_cast hneg
    omega
  · exact h0
  · have heq : q - (⌊q⌋ : ℚ) = 1/2 := le_antisymm (not_lt.mp h2) (not_lt.mp h1)
    have : (⌊q⌋ : ℚ) ≤ -(1/2) := by linarith
    have hneg : (⌊q⌋ : ℚ) < 0 := by linarith
    have : ⌊q⌋ < 0 := by exact_mod_cast hneg
    omega

/-- A quantity that rounds to a positive integer is positive. -/
theorem pyRound_pos (q : ℚ) (h : 1 ≤ pyRound q) : 0 < q := by
  unfold pyRound at h
  rw [ratFloor_eq_floor] at h
  dsimp only at h
  have hle : (⌊q⌋ : ℚ) ≤ q := Int.floor_le q
  split_ifs at h with h1 h2 h3
  · have : (1 : ℚ) ≤ (⌊q⌋ : ℚ) := by exact_mod_cast h
    linarith
  · have hf : (0 : ℤ) ≤ ⌊q⌋ := by omega
    have hf' : (0 : ℚ) ≤ (⌊q⌋ : ℚ) := by exact_mod_cast hf
    linarith
  · have : (1 : ℚ) ≤ (⌊q⌋ : ℚ) := by exact_mod_cast h
    linarith
  · have hf : (0 : ℤ) ≤ ⌊q⌋ := by omega
    have hf' : (0 : ℚ) ≤ (⌊q⌋ : ℚ) := by exact_mod_cast hf
    have heq : q - (⌊q⌋ : ℚ) = 1/2 := le_antisymm (not_lt.mp h2) (not_lt.mp h1)
    linarith

/-- The invalid tokens collected by one progress tick are the concatenation
of the per-user contributions, and a dispatch is attempted exactly for the
users whose reminder is computable: errors raised by `send` are caught per
user and never stop the loop. -/
theorem progress_send_loop_spec
    (send : List String → Except String PushResult)
    (reminders : ℕ → Option (String × String × List (String × String))) :
    ∀ users : List (ℕ × List String),
      (progress_send_loop send reminders users).1 =
        (users.filter (fun p => (reminders p.1).isSome)).map (fun p => p.1) ∧
      (progress_send_loop send reminders users).2 =
        (users.map (fun p =>
          progress_user_invalid_tokens send (reminders p.1) p.2)).flatten := by
  intro users
  induction users with
  | nil => exact ⟨rfl, rfl⟩
  | cons hd tl ih =>
    obtain ⟨ih1, ih2⟩ := ih
    obtain ⟨uid, tokens⟩ := hd
    constructor
    · show (progress_send_loop send reminders ((uid, tokens) :: tl)).1 = _
      rw [progress_send_loop]
      cases hrem : reminders uid with
      | none => simpa [progress_user_invalid_tokens, hrem] using ih1
      | some r =>
        cases hsend : send tokens with
        | ok result => simpa [progress_user_invalid_tokens, hrem, hsend] using ih1
        | error e => simpa [progress_user_invalid_tokens, hrem, hsend] using ih1
    · show (progress_send_loop send reminders ((uid, tokens) :: tl)).2 = _
      rw [progress_send_loop]
      cases hrem : reminders uid with
      | none => simpa [progress_user_invalid_tokens, hrem] using ih2
      | some r =>
        cases hsend : send tokens with
        | ok result => simpa [progress_user_invalid_tokens, hrem, hsend] using ih2
        | error e => simpa [progress_user_invalid_tokens, hrem, hsend] using ih2

/-- C1: For the spec's end-to-end scenario — latest weight 80 kg, goal
weight 75 kg, timeframe "4 weeks" (28 days), no height/age, 5000 steps and
900 kcal consumed today — the pipeline resolves maintenance 2400, clamps the
target to the 1200 floor, rounds burned calories to 229, leaves
529 = 1200 + 229 − 900 remaining and builds the progress notification with
remaining 529. -/
theorem c1_end_to_end :
    goal_weight_from_answers c1_data.answers = some 75 ∧
    goal_timeframe_days_from_answers c1_data.answers = some 28 ∧
    resolved_current_weight c1_data = some 80 ∧
    height_cm_from_answers c1_data.answers = none ∧
    estimate_maintenance_calories 80 none none none = 2400 ∧
    calculate_target_calories c1_today c1_data = some (1200, 229) ∧
    todays_burned_calories c1_data (some 80) = 229 ∧
    todays_consumed_calories c1_data = 900 ∧
    pyRound (((1200 + 229 : ℤ) : ℚ) - todays_consumed_calories c1_data) = 529 ∧
    build_user_reminder c1_today c1_data =
      some (PROGRESS_REMINDER_TITLE, format_progress_body 529 1429,
        [("type", "progress_update"), ("remaining_calories", "529"),
         ("target_calories", "1429")]) := by
  refine ⟨?_, ?_, ?_, ?_, ?_, ?_, ?_, ?_, ?_, ?_⟩ <;> with_unfolding_all rfl

/-- C2 counterexample: on weight 70 kg, height 175 cm, age 30, gender male,
the estimator returns 1978.5 kcal, not ≈2009.7; the claim's own formula
10·70 + 6.25·175 − 5·30 + 5 evaluates to 1648.75, not the claimed
1674.75. -/
theorem c2_counterexample :
    estimate_maintenance_calories 70 (some 175) (some 30) (some "male") =
      3957 / 2 ∧
    10 * (70 : ℚ) + (625 / 100) * 175 - 5 * 30 + 5 = 6595 / 4 ∧
    ¬ ((6595 : ℚ) / 4 = 167475 / 100) ∧
    ¬ ((3957 : ℚ) / 2 = 20097 / 10) ∧
    |(3957 : ℚ) / 2 - 20097 / 10| = 156 / 5 := by
  refine ⟨by with_unfolding_all rfl, by norm_num, by norm_num, by norm_num, ?_⟩
  rw [abs_of_nonpos (by norm_num)]
  norm_num

/-- C2 (amended): the estimator computes the Mifflin-St Jeor BMR
10·70 + 6.25·175 − 5·30 + 5 = 1648.75 and maintenance
1648.75 × 1.2 = 1978.5. -/
theorem c2_maintenance_value :
    estimate_maintenance_calories 70 (some 175) (some 30) (some "male") =
      (10 * 70 + (625 / 100) * 175 - 5 * 30 + BMR_MALE_OFFSET) *
        ACTIVITY_MULTIPLIER ∧
    (10 * 70 + (625 / 100) * 175 - 5 * 30 + BMR_MALE_OFFSET) *
        ACTIVITY_MULTIPLIER = (3957 : ℚ) / 2 := by
  constructor
  · with_unfolding_all rfl
  · norm_num [BMR_MALE_OFFSET, ACTIVITY_MULTIPLIER]

/-- C3: whenever the resolved current weight, the resolved goal weight or the
resolved timeframe is missing, the calorie target calculation returns `None`
and no progress notification is built for the user; the embedding is total,
so no error is raised. -/
theorem c3_missing_inputs_skip (today : PyDate) (d : ProgressUserData)
    (h : resolved_current_weight d = none ∨
      goal_weight_from_answers d.answers = none ∨
      goal_timeframe_days_from_answers d.answers = none) :
    calculate_target_calories today d = none ∧
    build_user_reminder today d = none := by
  have hcalc : calculate_target_calories today d = none := by
    rcases h1 : resolved_current_weight d with _ | cw <;>
      rcases h2 : goal_weight_from_answers d.answers with _ | gw <;>
        rcases h3 : goal_timeframe_days_from_answers d.answers with _ | tf <;>
          simp_all [calculate_target_calories]
  refine ⟨hcalc, ?_⟩
  unfold build_user_reminder
  rw [hcalc]

/-- C3 witness: a user with a current weight and a timeframe but no
goal-weight answer is skipped. -/
theorem c3_witness :
    goal_weight_from_answers c3_data.answers = none ∧
    build_user_reminder c1_today c3_data = none := by
  have hgw : goal_weight_from_answers c3_data.answers = none := by
    with_unfolding_all rfl
  exact ⟨hgw,
    (c3_missing_inputs_skip c1_today c3_data (Or.inr (Or.inl hgw))).2⟩

/-- C4: the conversion helpers reject negative magnitudes with `None`, apply
exactly the documented factors for lb/oz/stone and cm/ft/in, pass unit-less
values through unchanged, and convert the "160 lbs" answer to within 0.01 kg
of 72.575. -/
theorem c4_unit_conversions :
    (∀ (v : ℚ) (u : Option String), v < 0 →
        convert_weight_to_kg v u = none ∧ convert_height_to_m v u = none) ∧
    (∀ v : ℚ, 0 ≤ v →
        convert_weight_to_kg v (some "lb") = some (v * (45359237 / 100000000)) ∧
        convert_weight_to_kg v (some "oz") = some (v * (283495 / 10000000)) ∧
        convert_weight_to_kg v (some "stone") =
          some (v * (635029318 / 100000000)) ∧
        convert_height_to_m v (some "cm") = some (v / 100) ∧
        convert_height_to_m v (some "ft") = some (v * (3048 / 10000)) ∧
        convert_height_to_m v (some "in") = some (v * (254 / 10000)) ∧
        convert_weight_to_kg v none = some v ∧
        convert_height_to_m v none = some v) ∧
    (∃ q : ℚ, weight_kg_from_answer c4_lbs_answer = some q ∧
        |q - 72575 / 1000| ≤ 1 / 100) := by
  refine ⟨fun v u hv => ⟨?_, ?_⟩, fun v hv => ?_, ?_⟩
  · simp [convert_weight_to_kg, hv]
  · simp [convert_height_to_m, hv]
  · have hnot : ¬ v < 0 := not_lt.mpr hv
    refine ⟨?_, ?_, ?_, ?_, ?_, ?_, ?_, ?_⟩ <;>
      simp [convert_weight_to_kg, convert_height_to_m, hnot]
  · refine ⟨45359237 / 625000, by with_unfolding_all rfl, ?_⟩
    rw [abs_le]
    constructor <;> norm_num

/-- C4 witness: the negative-rejection and lb-factor clauses at concrete
inputs. -/
theorem c4_witness :
    convert_weight_to_kg (-1) (some "kg") = none ∧
    convert_weight_to_kg 2 (some "lb") = some (2 * (45359237 / 100000000)) :=
  ⟨(c4_unit_conversions.1 (-1) (some "kg") (by norm_num)).1,
    (c4_unit_conversions.2.1 2 (by norm_num)).1⟩

/-- C5 counterexample: a timeframe answer of "0.3 days" (keyword "time" in
the question, positive value 0.3, day unit resolved from the text) yields
1 day from the code, while the claim's mapping round(0.3) gives 0 days. -/
theorem c5_counterexample :
    goal_timeframe_days_from_answers [c5_day_answer] = some 1 ∧
    parse_numeric_value c5_day_answer.answer_text = some (3 / 10) ∧
    (0 : ℚ) < 3 / 10 ∧
    resolve_unit c5_day_answer = some "day" ∧
    pyRound (3 / 10) = 0 ∧
    (1 : ℤ) ≠ 0 := by
  refine ⟨by with_unfolding_all rfl, by with_unfolding_all rfl, by norm_num,
    by with_unfolding_all rfl, by with_unfolding_all rfl, by norm_num⟩

/-- C5 (amended): timeframe resolution yields a value only for a
keyword-matched answer carrying a positive numeric value, and then maps the
number n through the resolved unit — max(round(n·30),1) days for a
month-like unit, max(round(n),1) for a day-like unit, and max(round(n·7),1)
for any other unit or when no unit is resolved. -/
theorem c5_timeframe_mapping (answers : List UserAnswer) :
    (goal_timeframe_days_from_answers answers ≠ none →
      ∃ a, find_answer_by_keywords answers
          ["week", "month", "time", "timeframe", "reach"] [] = some a ∧
        ∃ v, parse_numeric_value a.answer_text = some v ∧ 0 < v) ∧
    (∀ (a : UserAnswer) (v : ℚ),
      find_answer_by_keywords answers
          ["week", "month", "time", "timeframe", "reach"] [] = some a →
      parse_numeric_value a.answer_text = some v → 0 < v →
      goal_timeframe_days_from_answers answers = some (
        match resolve_unit a with
        | some u =>
          if strContains u "month" then max (pyRound (v * 30)) 1
          else if strContains u "day" then max (pyRound v) 1
          else max (pyRound (v * 7)) 1
        | none => max (pyRound (v * 7)) 1)) := by
  constructor
  · intro hne
    unfold goal_timeframe_days_from_answers at hne
    cases hfind : find_answer_by_keywords answers
        ["week", "month", "time", "timeframe", "reach"] [] with
    | none => rw [hfind] at hne; simp at hne
    | some a =>
      rw [hfind] at hne
      dsimp only at hne
      cases hparse : parse_numeric_value a.answer_text with
      | none => rw [hparse] at hne; simp at hne
      | some v =>
        rw [hparse] at hne
        dsimp only at hne
        by_cases hv : v ≤ 0
        · rw [if_pos hv] at hne; simp at hne
        · exact ⟨a, rfl, v, hparse, lt_of_not_le hv⟩
  · intro a v hfind hparse hv
    unfold goal_timeframe_days_from_answers
    rw [hfind]
    dsimp only
    rw [hparse]
    dsimp only
    rw [if_neg (not_le.mpr hv)]
    cases hu : resolve_unit a with
    | none => rfl
    | some u => dsimp only; split_ifs <;> rfl

/-- C5 witness: "4 weeks" resolves through the amended mapping to 28 days. -/
theorem c5_witness :
    goal_timeframe_days_from_answers [c5_week_answer] = some 28 := by
  have h := (c5_timeframe_mapping [c5_week_answer]).2 c5_week_answer 4
    (by with_unfolding_all rfl) (by with_unfolding_all rfl) (by norm_num)
  exact h.trans (by with_unfolding_all rfl)

/-- C6: when a target is computable, the user is skipped (no notification
built) whenever remaining = (target + burned) − consumed is nonpositive, and
a notification is built only when remaining is positive. -/
theorem c6_nonpositive_remaining_skips (today : PyDate) (d : ProgressUserData)
    (t b : ℤ) (hcalc : calculate_target_calories today d = some (t, b)) :
    (((t + b : ℤ) : ℚ) - todays_consumed_calories d ≤ 0 →
      build_user_reminder today d = none) ∧
    (∀ r, build_user_reminder today d = some r →
      0 < ((t + b : ℤ) : ℚ) - todays_consumed_calories d) ∧
    (((t + b : ℤ) : ℚ) - todays_consumed_calories d ≤ 0 →
      ∀ (send : List String → Except String PushResult)
        (reminders : ℕ → Option (String × String × List (String × String)))
        (uid : ℕ) (users : List (ℕ × List String)),
        reminders uid = build_user_reminder today d →
        uid ∉ (progress_send_loop send reminders users).1) := by
  have hnone : ((t + b : ℤ) : ℚ) - todays_consumed_calories d ≤ 0 →
      build_user_reminder today d = none := by
    intro hle
    have hr := pyRound_le_zero _ hle
    unfold build_user_reminder
    rw [hcalc]
    dsimp only
    rw [if_pos hr]
  refine ⟨hnone, ?_, ?_⟩
  · intro r hsome
    by_contra hpos
    push_neg at hpos
    rw [hnone hpos] at hsome
    exact Option.noConfusion hsome
  · intro hle send reminders uid users hrem hmem
    rw [(progress_send_loop_spec send reminders users).1] at hmem
    obtain ⟨p, hp, hpe⟩ := List.mem_map.mp hmem
    have hfil := (List.mem_filter.mp hp).2
    rw [hpe, hrem, hnone hle] at hfil
    exact Bool.noConfusion hfil

/-- C6 witness: with 2000 kcal consumed against the 1429 kcal allowance, no
notification is built. -/
theorem c6_witness : build_user_reminder c1_today c6_data = none :=
  (c6_nonpositive_remaining_skips c1_today c6_data 1200 229
    (by with_unfolding_all rfl)).1 (by with_unfolding_all decide)

/-- Characterisation of `_is_reminder_due`: due exactly when a log exists at
least 7 calendar days old and any reminder of that kind is at least 7
calendar days old.  (When the last reminder predates the last log the source
skips the explicit reminder-age check, but the log-age check subsumes it.) -/
theorem is_reminder_due_iff (lastLog lastRem : Option ℚ) (now : ℚ) :
    is_reminder_due lastLog lastRem now = true ↔
      ((∃ logAt, lastLog = some logAt ∧
          REMINDER_INTERVAL_DAYS ≤ ratFloor now - ratFloor logAt) ∧
       (∀ remAt, lastRem = some remAt →
          REMINDER_INTERVAL_DAYS ≤ ratFloor now - ratFloor remAt)) := by
  cases lastLog with
  | none => simp [is_reminder_due]
  | some logAt =>
    by_cases hlog : ratFloor now - ratFloor logAt < REMINDER_INTERVAL_DAYS
    · simp only [is_reminder_due, if_pos hlog]
      constructor
      · intro h; exact absurd h (by simp)
      · rintro ⟨⟨l, hl, h7⟩, -⟩
        injection hl with hl
        subst hl
        omega
    · have hlog7 : REMINDER_INTERVAL_DAYS ≤ ratFloor now - ratFloor logAt :=
        not_lt.mp hlog
      cases lastRem with
      | none =>
        simp only [is_reminder_due, if_neg hlog]
        constructor
        · intro _
          exact ⟨⟨logAt, rfl, hlog7⟩, by simp⟩
        · intro _; trivial
      | some remAt =>
        by_cases hord : remAt ≥ logAt
        · by_cases hrem : ratFloor now - ratFloor remAt < REMINDER_INTERVAL_DAYS
          · simp only [is_reminder_due, if_neg hlog, if_pos hord, if_pos hrem]
            constructor
            · intro h; exact absurd h (by simp)
            · rintro ⟨-, hall⟩
              have := hall remAt rfl
              omega
          · simp only [is_reminder_due, if_neg hlog, if_pos hord, if_neg hrem]
            constructor
            · intro _
              refine ⟨⟨logAt, rfl, hlog7⟩, ?_⟩
              rintro r hr
              injection hr with hr
              subst hr
              exact not_lt.mp hrem
            · intro _; trivial
        · simp only [is_reminder_due, if_neg hlog, if_neg hord]
          have hmono : ratFloor remAt ≤ ratFloor logAt :=
            ratFloor_mono (le_of_lt (lt_of_not_le hord))
          constructor
          · intro _
            refine ⟨⟨logAt, rfl, hlog7⟩, ?_⟩
            rintro r hr
            injection hr with hr
            subst hr
            omega
          · intro _; trivial

/-- C7: a weight (resp. photo) tracking reminder is sent exactly when at
least 7 days have passed since the last weight log (resp. photo) and at
least 7 days since the last reminder of that kind, and a sent reminder
stamps the corresponding `last_*_reminder_at` to now (an unsent one leaves
it unchanged). -/
theorem c7_tracking_schedule (u : TrackingUser) (now : ℚ) :
    ((tracking_process_user u now).1 = true ↔
      ((∃ logAt, u.last_weight_log_at = some logAt ∧
          REMINDER_INTERVAL_DAYS ≤ ratFloor now - ratFloor logAt) ∧
       (∀ remAt, u.last_weight_reminder_at = some remAt →
          REMINDER_INTERVAL_DAYS ≤ ratFloor now - ratFloor remAt))) ∧
    ((tracking_process_user u now).2.1 = true ↔
      ((∃ photoAt, u.last_photo_taken_at = some photoAt ∧
          REMINDER_INTERVAL_DAYS ≤ ratFloor now - ratFloor photoAt) ∧
       (∀ remAt, u.last_progress_photo_reminder_at = some remAt →
          REMINDER_INTERVAL_DAYS ≤ ratFloor now - ratFloor remAt))) ∧
    ((tracking_process_user u now).1 = true →
      (tracking_process_user u now).2.2.last_weight_reminder_at = some now) ∧
    ((tracking_process_user u now).1 = false →
      (tracking_process_user u now).2.2.last_weight_reminder_at =
        u.last_weight_reminder_at) ∧
    ((tracking_process_user u now).2.1 = true →
      (tracking_process_user u now).2.2.last_progress_photo_reminder_at =
        some now) ∧
    ((tracking_process_user u now).2.1 = false →
      (tracking_process_user u now).2.2.last_progress_photo_reminder_at =
        u.last_progress_photo_reminder_at) := by
  have hdef : tracking_process_user u now =
      (should_send_weight_reminder u now, should_send_photo_reminder u now,
       { u with
         last_weight_reminder_at :=
           if should_send_weight_reminder u now then some now
           else u.last_weight_reminder_at
         last_progress_photo_reminder_at :=
           if should_send_photo_reminder u now then some now
           else u.last_progress_photo_reminder_at }) := by
    unfold tracking_process_user
    by_cases hw : should_send_weight_reminder u now <;>
      by_cases hp : should_send_photo_reminder u now <;>
        simp_all [should_send_photo_reminder]
  rw [hdef]
  refine ⟨is_reminder_due_iff _ _ _, is_reminder_due_iff _ _ _,
    ?_, ?_, ?_, ?_⟩ <;> intro h <;> simp at h <;> simp [h]

/-- C7 witness: a log 10 days old and no prior reminder triggers the weight
reminder and stamps `last_weight_reminder_at = now`. -/
theorem c7_witness :
    (tracking_process_user c7_user 10).1 = true ∧
    (tracking_process_user c7_user 10).2.2.last_weight_reminder_at =
      some 10 := by
  have hsent : (tracking_process_user c7_user 10).1 = true := by
    with_unfolding_all rfl
  exact ⟨hsent, (c7_tracking_schedule c7_user 10).2.2.1 hsent⟩

/-- C8 counterexample: called with 501 tokens, `send_push_notification`
hands the transport a single batch of 501 tokens — not the ⌈501/500⌉ = 2
batches of at most 500 the claim asserts. -/
theorem c8_counterexample :
    send_push_transport_calls true c8_tokens = [c8_tokens] ∧
    (send_push_transport_calls true c8_tokens).length = 1 ∧
    (c8_tokens.length + 499) / 500 = 2 ∧
    ∃ batch ∈ send_push_transport_calls true c8_tokens,
      500 < batch.length := by
  have hcalls : send_push_transport_calls true c8_tokens = [c8_tokens] := by
    simp [send_push_transport_calls, c8_tokens]
  refine ⟨hcalls, by rw [hcalls]; rfl, by simp [c8_tokens], ?_⟩
  exact ⟨c8_tokens, by rw [hcalls]; exact List.mem_singleton.mpr rfl,
    by simp [c8_tokens]⟩

/-- Every batch `_chunk_tokens` yields has at most 500 tokens. -/
theorem chunk_tokens_length_le (tokens : List String) :
    ∀ batch ∈ chunk_tokens tokens, batch.length ≤ 500 := by
  induction tokens using chunk_tokens.induct with
  | case1 => simp [chunk_tokens]
  | case2 t rest ih =>
    rw [chunk_tokens]
    intro batch hb
    rcases List.mem_cons.mp hb with hb | hb
    · subst hb
      simp [List.length_take]
    · exact ih batch hb

/-- Concatenating the batches of `_chunk_tokens` recovers the token list. -/
theorem chunk_tokens_flatten (tokens : List String) :
    (chunk_tokens tokens).flatten = tokens := by
  induction tokens using chunk_tokens.induct with
  | case1 => simp [chunk_tokens]
  | case2 t rest ih =>
    rw [chunk_tokens]
    simp only [List.flatten_cons, ih, List.take_append_drop]

/-- `_chunk_tokens` produces exactly ⌈n/500⌉ batches. -/
theorem chunk_tokens_count (tokens : List String) :
    (chunk_tokens tokens).length = (tokens.length + 499) / 500 := by
  induction tokens using chunk_tokens.induct with
  | case1 => simp [chunk_tokens]
  | case2 t rest ih =>
    rw [chunk_tokens]
    simp only [List.length_cons, ih, List.length_drop]
    omega

/-- C8 (amended): the dispatcher itself sends the whole token list in one
transport invocation; the 500-token batching is done by the admin fan-out
endpoint, whose `_chunk_tokens` splits any token list into ⌈n/500⌉ batches
of at most 500 tokens whose concatenation is the original list, calling the
dispatcher once per batch. -/
theorem c8_admin_chunking (tokens : List String) :
    (tokens ≠ [] → send_push_transport_calls true tokens = [tokens]) ∧
    (∀ batch ∈ chunk_tokens tokens, batch.length ≤ 500) ∧
    (chunk_tokens tokens).flatten = tokens ∧
    (chunk_tokens tokens).length = (tokens.length + 499) / 500 := by
  refine ⟨fun h => ?_, chunk_tokens_length_le tokens,
    chunk_tokens_flatten tokens, chunk_tokens_count tokens⟩
  simp [send_push_transport_calls, h]

/-- C8 witness: a nonempty singleton list goes to the transport as itself. -/
theorem c8_witness : send_push_transport_calls true ["a"] = [["a"]] :=
  (c8_admin_chunking ["a"]).1 (by simp)

/-- C9: the dispatcher raises exactly when the Firebase app is unconfigured;
when configured it always returns a result whose failure count and
invalid-token list classify the per-token outcomes through the allow-list,
and the scheduler loop processes every user regardless of per-user send
errors. -/
theorem c9_config_error_and_classification (configured : Bool)
    (transport : List String → List SendResponse) (tokens : List String) :
    ((∃ msg, send_push_notification configured transport tokens =
        .error msg) ↔ configured = false) ∧
    (configured = true →
      ∃ result,
        send_push_notification configured transport tokens = .ok result ∧
        (tokens.isEmpty = false →
          result.failure =
            ((transport tokens).filter (fun r => !r.success)).length ∧
          result.invalid_tokens = some
            ((tokens.zip (transport tokens)).filterMap (fun p =>
              if p.2.success then none
              else if should_invalidate_token p.2.error_code p.2.error_message
              then some p.1
              else none)))) ∧
    (∀ (reminders : ℕ → Option (String × String × List (String × String)))
       (users : List (ℕ × List String)),
      (progress_send_loop
          (send_push_notification configured transport) reminders users).1 =
        (users.filter (fun p => (reminders p.1).isSome)).map (fun p => p.1)) := by
  refine ⟨?_, ?_, ?_⟩
  · cases configured with
    | false => exact ⟨fun _ => rfl, fun _ => ⟨_, rfl⟩⟩
    | true =>
      constructor
      · rintro ⟨msg, hmsg⟩
        cases htk : tokens.isEmpty <;>
          simp [send_push_notification, htk] at hmsg
      · intro h; exact absurd h (by simp)
  · intro hc
    subst hc
    cases htk : tokens.isEmpty with
    | true =>
      refine ⟨{ success := 0, failure := 0, invalid_tokens := none,
                errors := none }, ?_, ?_⟩
      · simp [send_push_notification, htk]
      · intro h
        simp [htk] at h
    | false =>
      refine ⟨{ success := ((transport tokens).filter (fun r => r.success)).length,
                failure := ((transport tokens).filter (fun r => !r.success)).length,
                invalid_tokens := some
                  ((tokens.zip (transport tokens)).filterMap (fun p =>
                    if p.2.success then none
                    else if should_invalidate_token p.2.error_code
                        p.2.error_message then some p.1
                    else none)),
                errors := some
                  ((tokens.zip (transport tokens)).filterMap (fun p =>
                    if p.2.success then none
                    else some { token := p.1, code := p.2.error_code,
                                message := p.2.error_message })) },
              ?_, fun _ => ⟨rfl, rfl⟩⟩
      simp [send_push_notification, htk]
  · intro reminders users
    exact (progress_send_loop_spec
      (send_push_notification configured transport) reminders users).1

/-- C9 witness: with a configured transport failing every token on an
allow-listed code, dispatch returns a result instead of raising. -/
theorem c9_witness :
    ∃ result, send_push_notification true c9_transport ["t1"] =
      Except.ok result := by
  obtain ⟨result, hok, -⟩ :=
    (c9_config_error_and_classification true c9_transport ["t1"]).2.1 rfl
  exact ⟨result, hok⟩

/-- C10: with a configured transport and no tokens, the dispatcher returns
bare zero counts without invoking the transport (the result is independent
of the transport and the transport-call list is empty), the absent
`invalid_tokens` key reads as the empty list, and pruning with it removes
nothing. -/
theorem c10_empty_token_list
    (transport transport' : List String → List SendResponse)
    (store : List String) :
    send_push_notification true transport [] =
      .ok { success := 0, failure := 0, invalid_tokens := none,
            errors := none } ∧
    send_push_transport_calls true [] = [] ∧
    send_push_notification true transport [] =
      send_push_notification true transport' [] ∧
    pyGetOrEmpty (PushResult.invalid_tokens
      { success := 0, failure := 0, invalid_tokens := none,
        errors := none }) = [] ∧
    prune_tokens store (pyGetOrEmpty none) = store := by
  refine ⟨rfl, rfl, rfl, rfl, ?_⟩
  simp [prune_tokens, pyGetOrEmpty]

end FitnessApp
